import Mathlib

/-!
Verification of the runtime control subsystem of the portfolio application:
the Performance Governor (`PerformanceService`), the Telemetry/Error Tracker
(`ErrorTrackingService`), the Scene State Store (`sceneStore`), and the
collision clamps of the Camera controller (`CameraController`).  Each
definition is a shallow embedding of the corresponding source function;
machine floats are modelled by `ℚ` (or `ℝ` where square roots occur), JS
arrays by `List`, and the mutable service objects by explicit state records.
-/

namespace Portfolio

/-- The performance-mode union type shared by `PerformanceService` and
`sceneStore`: `'auto' | 'high' | 'medium' | 'low'`. -/
inductive PerformanceMode where
  | auto
  | high
  | medium
  | low
deriving DecidableEq, Repr

namespace Perf

/-- `PerformanceSettings` record of `PerformanceService`. -/
structure PerformanceSettings where
  targetFPS : ℚ
  antialias : Bool
  shadows : Bool
  textureQuality : ℚ
  renderScale : ℚ
deriving DecidableEq, Repr

/-- The `performanceSettings` table of `PerformanceService` (per-tier render
settings; `0.75 = 3/4`, `0.8 = 4/5`, `0.5 = 1/2`, `0.6 = 3/5`). -/
def performanceSettings : PerformanceMode → PerformanceSettings
  | .high   => ⟨60, true, true, 1, 1⟩
  | .medium => ⟨45, true, false, 3/4, 4/5⟩
  | .low    => ⟨30, false, false, 1/2, 3/5⟩
  | .auto   => ⟨60, true, true, 1, 1⟩

/-- The mutable fields of the `PerformanceService` object that the monitor
loop reads and writes (callbacks are modelled separately, since invoking
them does not mutate these fields). -/
structure PerfState where
  frameCount : ℕ
  lastTime : ℚ
  fpsCalculationStartTime : ℚ
  fps : ℚ
  frameTime : ℚ
  fpsHistory : List ℚ
  performanceMode : PerformanceMode
  targetFPS : ℚ
deriving DecidableEq, Repr

/-- The field initializers of `PerformanceService` at construction time
(`performance.now()` is the parameter `now`; `frameTime` starts at 16.67). -/
def initPerfState (now : ℚ) : PerfState :=
  { frameCount := 0
    lastTime := now
    fpsCalculationStartTime := now
    fps := 60
    frameTime := 1667/100
    fpsHistory := []
    performanceMode := .auto
    targetFPS := 60 }

/-- `PerformanceService.getAverageFPS`: mean of the FPS history computed by
`reduce((a, b) => a + b, 0) / length`, falling back to the instantaneous
`fps` when the history is empty. -/
def getAverageFPS (s : PerfState) : ℚ :=
  if s.fpsHistory.length = 0 then s.fps
  else s.fpsHistory.foldl (fun a b => a + b) 0 / s.fpsHistory.length

/-- `PerformanceService.updateFPSHistory`: `push` the new value, then `shift`
(drop the head) when the length exceeds 30. -/
def updateFPSHistory (s : PerfState) (fps : ℚ) : PerfState :=
  let h := s.fpsHistory ++ [fps]
  { s with fpsHistory := if h.length > 30 then h.tail else h }

/-- `PerformanceService.autoAdjustPerformance`: the auto-adjust threshold
table, evaluated on the average FPS. -/
def autoAdjustPerformance (s : PerfState) : PerfState :=
  let averageFPS := getAverageFPS s
  if averageFPS < 25 ∧ s.performanceMode ≠ .low then
    { s with performanceMode := .low }
  else if averageFPS < 40 ∧ s.performanceMode = .high then
    { s with performanceMode := .medium }
  else if averageFPS > 55 ∧ s.performanceMode = .low then
    { s with performanceMode := .medium }
  else if averageFPS > 55 ∧ s.performanceMode = .medium then
    { s with performanceMode := .high }
  else s

/-- `PerformanceService.setPerformanceMode`. -/
def setPerformanceMode (s : PerfState) (mode : PerformanceMode) : PerfState :=
  { s with performanceMode := mode
           targetFPS := (performanceSettings mode).targetFPS }

/-- One invocation of the `monitor` closure of
`PerformanceService.startMonitoring`, at wall-clock time `currentTime`:
update `frameTime`/`lastTime`/`frameCount`; every 60th invocation recompute
`fps` from the elapsed time since `fpsCalculationStartTime`, reset that
start time, push into the history, and run the auto-adjust table when the
mode is `auto`.  (Subscriber notification does not touch these fields and is
modelled separately.) -/
def monitorStep (s : PerfState) (currentTime : ℚ) : PerfState :=
  let s1 := { s with frameTime := currentTime - s.lastTime
                     lastTime := currentTime
                     frameCount := s.frameCount + 1 }
  if s1.frameCount % 60 = 0 then
    let newFPS := 60 * 1000 / (currentTime - s1.fpsCalculationStartTime)
    let s2 := { s1 with fps := newFPS, fpsCalculationStartTime := currentTime }
    let s3 := updateFPSHistory s2 newFPS
    if s3.performanceMode = .auto then autoAdjustPerformance s3 else s3
  else s1

/-- The monitor loop over an explicit list of invocation times. -/
def runMonitor (s : PerfState) (ts : List ℚ) : PerfState :=
  ts.foldl monitorStep s

/-- The monitor loop run `n` times with the `k`-th invocation occurring at
time `t0 + k * T` (fixed spacing `T` after start time `t0`). -/
def monitorRun (s : PerfState) (t0 T : ℚ) : ℕ → PerfState
  | 0 => s
  | n + 1 => monitorStep (monitorRun s t0 T n) (t0 + (n + 1) * T)

/-- Numeric level of a tier in the ordering `low < medium < high`
(`auto` resolves to the default `high` level). -/
def rank : PerformanceMode → ℕ
  | .low => 0
  | .medium => 1
  | .high => 2
  | .auto => 2

/-- A concrete governor state: current tier `high`, average FPS 10. -/
def highAt10 : PerfState :=
  { frameCount := 60
    lastTime := 6000
    fpsCalculationStartTime := 6000
    fps := 10
    frameTime := 100
    fpsHistory := [10]
    performanceMode := .high
    targetFPS := 60 }

/-- A concrete governor state: current tier `low`, average FPS 60. -/
def lowAt60 : PerfState :=
  { highAt10 with performanceMode := .low, fps := 60, fpsHistory := [60] }

/-- The governor one invocation before its first window close: the
constructor state with `setPerformanceMode('auto')` applied, 59 invocations
in (spaced 100 ms apart, so the window will close at `t = 6000` with an
average FPS of 10). -/
def winA : PerfState :=
  { setPerformanceMode (initPerfState 0) .auto with
      frameCount := 59, lastTime := 5900, frameTime := 100 }

end Perf

namespace Subscribers

/-- `Array.prototype.indexOf` over the `callbacks` array of
`PerformanceService`: index of the first occurrence of the callback, `-1`
when absent.  Callbacks are function objects compared by identity; they are
modelled as numeric identifiers, so the same function subscribed twice
yields two equal entries. -/
def indexOfJS : List ℕ → ℕ → Int
  | [], _ => -1
  | c :: cs, cb =>
    if c = cb then 0
    else
      let r := indexOfJS cs cb
      if r = -1 then -1 else r + 1

/-- `Array.prototype.splice(i, 1)`: remove the single element at index `i`. -/
def spliceOne (cbs : List ℕ) (i : ℕ) : List ℕ :=
  cbs.take i ++ cbs.drop (i + 1)

/-- The unsubscribe closure returned by `PerformanceService.subscribe`: look
up the captured callback with `indexOf` and `splice` it out when the index
is `> -1`. -/
def unsubscribeStep (cbs : List ℕ) (cb : ℕ) : List ℕ :=
  let index := indexOfJS cbs cb
  if index > -1 then spliceOne cbs index.toNat else cbs

/-- `this.callbacks.forEach(callback => callback(metrics))` under JS
exception semantics: callbacks run in registration order; a throwing
callback is itself invoked but aborts the iteration (the exception
propagates out of `forEach`), so no later callback runs.  `throws` says
which callbacks throw; the result is the list of callbacks actually
invoked. -/
def invokedDuringNotify (throws : ℕ → Bool) : List ℕ → List ℕ
  | [] => []
  | c :: cs => if throws c then [c] else c :: invokedDuringNotify throws cs

end Subscribers

namespace Track

/-- `ErrorTrackingService.maxStoredErrors`. -/
def maxStoredErrors : ℕ := 50

/-- `ErrorTrackingService.maxStoredIssues`. -/
def maxStoredIssues : ℕ := 100

/-- The list maintenance shared by `ErrorTrackingService.trackError` and
`trackPerformanceIssue`: `unshift` the new entry at the front, then
`slice(0, cap)` when the length exceeds the cap.  Entries are abstracted to
numeric identifiers. -/
def boundedUnshift (cap : ℕ) (l : List ℕ) (e : ℕ) : List ℕ :=
  let l' := e :: l
  if l'.length > cap then l'.take cap else l'

/-- `ErrorTrackingService.trackError` (stored-list part). -/
def trackError (errors : List ℕ) (e : ℕ) : List ℕ :=
  boundedUnshift maxStoredErrors errors e

/-- `ErrorTrackingService.trackPerformanceIssue` (stored-list part). -/
def trackPerformanceIssue (issues : List ℕ) (e : ℕ) : List ℕ :=
  boundedUnshift maxStoredIssues issues e

end Track

namespace Scene

/-- `UserPreferences` of `sceneStore`. -/
structure UserPreferences where
  reducedMotion : Bool
  audioEnabled : Bool
  skipIntroduction : Bool
  performanceMode : PerformanceMode
deriving DecidableEq, Repr

/-- A `THREE.Vector3` (cloned on every store write, so plain values here). -/
structure V3 where
  x : ℚ
  y : ℚ
  z : ℚ
deriving DecidableEq, Repr

/-- The `SceneState` fields of `sceneStore`. -/
structure SceneState where
  loaded : Bool
  currentZone : String
  loadingProgress : ℚ
  userPosition : V3
  cameraTarget : V3
  cameraRotationX : ℚ
  cameraRotationY : ℚ
  performanceMode : PerformanceMode
  currentFPS : ℚ
  averageFPS : ℚ
  userPreferences : UserPreferences
  isNavigating : Bool
  lastInteractionTime : ℚ
  error : Option String
deriving DecidableEq, Repr

/-- The `initialState` constant of `sceneStore` (`Date.now()` at module load
is the parameter `now`). -/
def initialState (now : ℚ) : SceneState :=
  { loaded := false
    currentZone := "main"
    loadingProgress := 0
    userPosition := ⟨0, 0, 5⟩
    cameraTarget := ⟨0, 0, 0⟩
    cameraRotationX := 0
    cameraRotationY := 0
    performanceMode := .auto
    currentFPS := 60
    averageFPS := 60
    userPreferences :=
      { reducedMotion := false
        audioEnabled := true
        skipIntroduction := false
        performanceMode := .auto }
    isNavigating := false
    lastInteractionTime := now
    error := none }

/-- `Partial<UserPreferences>`: each field either absent (`none`) or
present.  (All four `PerformanceMode` string values are truthy in JS, so
presence of `performanceMode` is what the `if (preferences.performanceMode)`
guard tests.) -/
structure PartialUserPreferences where
  reducedMotion : Option Bool
  audioEnabled : Option Bool
  skipIntroduction : Option Bool
  performanceMode : Option PerformanceMode
deriving DecidableEq, Repr

/-- The named mutation operations of `sceneStore` with their arguments
(`Date.now()` calls are passed in as `now` parameters, browser probes of
`initializeDefaults` as booleans). -/
inductive SceneAction where
  | setLoaded (b : Bool)
  | setCurrentZone (zone : String)
  | setLoadingProgress (progress : ℚ)
  | updateUserPosition (p : V3)
  | updateCameraTarget (p : V3)
  | updateCameraRotation (x y : ℚ)
  | setPerformanceMode (mode : PerformanceMode)
  | updateFPS (fps : ℚ)
  | updateAverageFPS (averageFPS : ℚ)
  | updateUserPreferences (p : PartialUserPreferences)
  | setIsNavigating (b : Bool)
  | updateLastInteractionTime (now : ℚ)
  | setError (e : Option String)
  | resetScene (now : ℚ)
  | initializeDefaults (isMobile isLowEndDevice prefersReducedMotion : Bool) (now : ℚ)
deriving DecidableEq, Repr

/-- The mutation bodies of `useSceneStore`, one per named operation. -/
def applyAction (s : SceneState) : SceneAction → SceneState
  | .setLoaded b => { s with loaded := b }
  | .setCurrentZone zone => { s with currentZone := zone }
  | .setLoadingProgress progress =>
      { s with loadingProgress := max 0 (min 100 progress) }
  | .updateUserPosition p => { s with userPosition := p }
  | .updateCameraTarget p => { s with cameraTarget := p }
  | .updateCameraRotation x y => { s with cameraRotationX := x, cameraRotationY := y }
  | .setPerformanceMode mode =>
      { s with performanceMode := mode
               userPreferences := { s.userPreferences with performanceMode := mode } }
  | .updateFPS fps => { s with currentFPS := fps }
  | .updateAverageFPS averageFPS => { s with averageFPS := averageFPS }
  | .updateUserPreferences p =>
      let up : UserPreferences :=
        { reducedMotion := p.reducedMotion.getD s.userPreferences.reducedMotion
          audioEnabled := p.audioEnabled.getD s.userPreferences.audioEnabled
          skipIntroduction := p.skipIntroduction.getD s.userPreferences.skipIntroduction
          performanceMode := p.performanceMode.getD s.userPreferences.performanceMode }
      match p.performanceMode with
      | some mode => { s with userPreferences := up, performanceMode := mode }
      | none => { s with userPreferences := up }
  | .setIsNavigating b => { s with isNavigating := b }
  | .updateLastInteractionTime now => { s with lastInteractionTime := now }
  | .setError e => { s with error := e }
  | .resetScene now => initialState now
  | .initializeDefaults isMobile isLowEndDevice prefersReducedMotion now =>
      let s1 :=
        if isMobile || isLowEndDevice then
          { s with performanceMode := .medium
                   userPreferences := { s.userPreferences with performanceMode := .medium } }
        else s
      let s2 :=
        if prefersReducedMotion then
          { s1 with userPreferences := { s1.userPreferences with reducedMotion := true } }
        else s1
      { s2 with lastInteractionTime := now }

/-- The implicit mirror invariant of the store: the top-level
`performanceMode` agrees with `userPreferences.performanceMode`. -/
def prefModeInv (s : SceneState) : Prop :=
  s.performanceMode = s.userPreferences.performanceMode

end Scene

namespace Cam

/-- A `THREE.Vector3` camera position, over `ℝ` because the boundary clamp
normalizes with a square root. -/
structure Vec3 where
  x : ℝ
  y : ℝ
  z : ℝ

/-- `THREE.Vector3.length()`. -/
noncomputable def len (v : Vec3) : ℝ :=
  Real.sqrt (v.x ^ 2 + v.y ^ 2 + v.z ^ 2)

/-- The vertical collision clamp of `CameraController`'s `useFrame` body:
`position.y = Math.max(0.5, position.y)` then
`position.y = Math.min(50, position.y)`. -/
noncomputable def clampY (v : Vec3) : Vec3 :=
  ⟨v.x, min 50 (max (1/2) v.y), v.z⟩

/-- The radial collision clamp of `CameraController`'s `useFrame` body:
when `position.length() > 100`, `position.normalize().multiplyScalar(100)`,
i.e. scale every component by `100 / length`. -/
noncomputable def clampRadius (v : Vec3) : Vec3 :=
  if 100 < len v then
    ⟨v.x * (100 / len v), v.y * (100 / len v), v.z * (100 / len v)⟩
  else v

/-- One `useFrame` position update with zero input (no key held, pointer
not captured, no accumulated look offsets): the movement branch is skipped
(`direction` is the zero vector), so the position only passes through the
collision boundaries — vertical clamp first, then the radial clamp. -/
noncomputable def frameClampZeroInput (v : Vec3) : Vec3 :=
  clampRadius (clampY v)

end Cam

end Portfolio

open Portfolio Portfolio.Perf Portfolio.Subscribers Portfolio.Track Portfolio.Scene Portfolio.Cam

/-- Claim C2, counterexample: one evaluation of the auto-adjust threshold
table on tier `high` with average FPS 10 switches directly to `low`,
skipping `medium` — a two-level de-escalation in a single window, which the
claim says cannot happen. -/
theorem autoAdjust_high_fps10_jumps_to_low :
    (autoAdjustPerformance highAt10).performanceMode = .low ∧
    rank highAt10.performanceMode = rank (autoAdjustPerformance highAt10).performanceMode + 2 := by
  have h : autoAdjustPerformance highAt10 = { highAt10 with performanceMode := .low } := by
    norm_num [autoAdjustPerformance, getAverageFPS, highAt10]
    all_goals decide
  rw [h]
  exact ⟨rfl, rfl⟩

/-- Claim C2, amended: one evaluation of the auto-adjust threshold table
raises the tier by at most one level (in particular `low` never escalates
directly to `high`, and `low` with average FPS above 55 escalates exactly to
`medium`), but de-escalation is not one-step: whenever the average FPS is
below 25 any non-`low` tier — including `high` — drops directly to `low` in
a single window. -/
theorem autoAdjust_single_step_up (s : PerfState) :
    rank (autoAdjustPerformance s).performanceMode ≤ rank s.performanceMode + 1 ∧
    (s.performanceMode = .low → (autoAdjustPerformance s).performanceMode ≠ .high) ∧
    (s.performanceMode = .low → 55 < getAverageFPS s →
      (autoAdjustPerformance s).performanceMode = .medium) ∧
    (getAverageFPS s < 25 → s.performanceMode ≠ .low →
      (autoAdjustPerformance s).performanceMode = .low) := by
  cases h : s.performanceMode <;>
    simp only [autoAdjustPerformance, h] <;>
    split_ifs <;>
    simp_all [rank]

/-- Claim C2, witness: the amended theorem applied to the concrete state
with tier `low` and average FPS 60 (the spec's own example). -/
theorem autoAdjust_single_step_up_w :
    rank (autoAdjustPerformance lowAt60).performanceMode ≤ rank lowAt60.performanceMode + 1 ∧
    (autoAdjustPerformance lowAt60).performanceMode = .medium :=
  ⟨(autoAdjust_single_step_up lowAt60).1,
   (autoAdjust_single_step_up lowAt60).2.2.1 rfl
     (by norm_num [getAverageFPS, lowAt60, highAt10])⟩

/-- Claim C1: the code latches out of automatic switching as soon as the
governor performs one automatic tier switch.  `autoAdjustPerformance`
overwrites `performanceMode` itself, and the monitor loop only evaluates the
threshold table when `performanceMode = 'auto'`, so after the first
automatic switch the mode is pinned at every later window close regardless
of the measured FPS: starting from `setPerformanceMode('auto')`, the first
window (average FPS 10) switches to `low`; at the second window close the
average FPS is 65 (> 55) yet the mode stays `low`, although the threshold
table itself would have escalated to `medium`. -/
theorem governor_auto_switch_latches :
    (∀ (s : PerfState) (t : ℚ), s.performanceMode ≠ .auto →
      (monitorStep s t).performanceMode = s.performanceMode) ∧
    (setPerformanceMode (initPerfState 0) .auto).performanceMode = .auto ∧
    (monitorStep winA 6000).performanceMode = .low ∧
    getAverageFPS (monitorStep { monitorStep winA 6000 with
        frameCount := 119, lastTime := 6490 } 6500) = 65 ∧
    (monitorStep { monitorStep winA 6000 with
        frameCount := 119, lastTime := 6490 } 6500).performanceMode = .low ∧
    (autoAdjustPerformance (monitorStep { monitorStep winA 6000 with
        frameCount := 119, lastTime := 6490 } 6500)).performanceMode = .medium := by
  have hA : monitorStep winA 6000 =
      { frameCount := 60, lastTime := 6000, fpsCalculationStartTime := 6000
        fps := 10, frameTime := 100, fpsHistory := [10]
        performanceMode := .low, targetFPS := 60 } := by
    norm_num [monitorStep, winA, setPerformanceMode, initPerfState, performanceSettings,
      updateFPSHistory, autoAdjustPerformance, getAverageFPS]
    all_goals decide
  have hB : monitorStep { monitorStep winA 6000 with
      frameCount := 119, lastTime := 6490 } 6500 =
      { frameCount := 120, lastTime := 6500, fpsCalculationStartTime := 6500
        fps := 120, frameTime := 10, fpsHistory := [10, 120]
        performanceMode := .low, targetFPS := 60 } := by
    rw [hA]
    norm_num [monitorStep, updateFPSHistory, autoAdjustPerformance, getAverageFPS]
    all_goals decide
  refine ⟨?_, rfl, by rw [hA], ?_, ?_, ?_⟩
  · intro s t h
    simp only [monitorStep]
    split_ifs with h1 h2
    · exact absurd h2 h
    · rfl
    · rfl
  · rw [hB]
    norm_num [getAverageFPS]
  · rw [hB]
  · rw [hB]
    norm_num [autoAdjustPerformance, getAverageFPS]

/-- Claim C1, witness: the mode-latch clause applied to a concrete pinned
state (tier `low`), one monitor invocation at `t = 6100`. -/
theorem governor_auto_switch_latches_w :
    (monitorStep lowAt60 6100).performanceMode = lowAt60.performanceMode :=
  governor_auto_switch_latches.1 lowAt60 6100 (by simp [lowAt60, highAt10])

lemma updateFPSHistory_fps (s : PerfState) (f : ℚ) :
    (updateFPSHistory s f).fps = s.fps := rfl

lemma autoAdjustPerformance_fps (s : PerfState) :
    (autoAdjustPerformance s).fps = s.fps := by
  simp only [autoAdjustPerformance]
  split_ifs <;> rfl

lemma monitorRun_succ (s : PerfState) (t0 T : ℚ) (n : ℕ) :
    monitorRun s t0 T (n + 1) =
      monitorStep (monitorRun s t0 T n) (t0 + (n + 1) * T) := rfl

/-- At a window close (the invocation that makes `frameCount` a multiple of
60), the new instantaneous FPS is 60000 divided by the wall-clock time
elapsed since the window started. -/
lemma monitorStep_close_fps (s : PerfState) (t : ℚ)
    (h : (s.frameCount + 1) % 60 = 0) :
    (monitorStep s t).fps = 60 * 1000 / (t - s.fpsCalculationStartTime) := by
  simp only [monitorStep, h, if_true]
  split_ifs with hm
  · rw [autoAdjustPerformance_fps, updateFPSHistory_fps]
  · rw [updateFPSHistory_fps]

/-- During the first 59 invocations no window closes: the frame counter
counts up and the window start time stays untouched. -/
lemma monitorRun_pre (t0 T : ℚ) : ∀ n : ℕ, n ≤ 59 →
    (monitorRun (initPerfState t0) t0 T n).frameCount = n ∧
    (monitorRun (initPerfState t0) t0 T n).fpsCalculationStartTime = t0 := by
  intro n
  induction n with
  | zero => exact fun _ => ⟨rfl, rfl⟩
  | succ k ih =>
    intro hk
    obtain ⟨hc, hs⟩ := ih (by omega)
    have hne : ((monitorRun (initPerfState t0) t0 T k).frameCount + 1) % 60 ≠ 0 := by
      rw [hc]; omega
    simp only [monitorRun, monitorStep]
    rw [if_neg hne]
    refine ⟨?_, ?_⟩
    · show (monitorRun (initPerfState t0) t0 T k).frameCount + 1 = k + 1
      rw [hc]
    · show (monitorRun (initPerfState t0) t0 T k).fpsCalculationStartTime = t0
      exact hs

/-- Claim C5: at every window close the instantaneous FPS equals
`60 * 1000` divided by the wall-clock milliseconds elapsed since the
window's start; in particular after exactly 60 monitor invocations spaced a
positive `T` ms apart from a freshly constructed governor, the FPS is
`60000 / (60 * T)`. -/
theorem fps_equals_60000_div_elapsed :
    (∀ (s : PerfState) (t : ℚ), (s.frameCount + 1) % 60 = 0 →
      (monitorStep s t).fps = 60 * 1000 / (t - s.fpsCalculationStartTime)) ∧
    (∀ t0 T : ℚ, 0 < T →
      (monitorRun (initPerfState t0) t0 T 60).fps = 60000 / (60 * T)) := by
  refine ⟨monitorStep_close_fps, ?_⟩
  intro t0 T hT
  have h59 := monitorRun_pre t0 T 59 (by omega)
  rw [show (60 : ℕ) = 59 + 1 from rfl, monitorRun_succ]
  rw [monitorStep_close_fps _ _ (by rw [h59.1])]
  rw [h59.2]
  push_cast
  ring

/-- Claim C5, witness: the theorem applied at `t0 = 0`, `T = 1`. -/
theorem fps_equals_60000_div_elapsed_w :
    (0 : ℚ) < 1 ∧ (monitorRun (initPerfState 0) 0 1 60).fps = 60000 / (60 * 1) :=
  ⟨by norm_num, fps_equals_60000_div_elapsed.2 0 1 (by norm_num)⟩

/-- Claim C8: the FPS history never grows beyond 30 entries (on overflow the
oldest — the head — is the one evicted), and `getAverageFPS` is the
arithmetic mean (sum divided by length) of the values currently in the
history, falling back to the last instantaneous FPS when the history is
empty. -/
theorem fpsHistory_bounded_and_mean :
    (∀ (s : PerfState) (f : ℚ), s.fpsHistory.length ≤ 30 →
      (updateFPSHistory s f).fpsHistory.length ≤ 30) ∧
    (∀ (s : PerfState) (f : ℚ), s.fpsHistory.length = 30 →
      (updateFPSHistory s f).fpsHistory = s.fpsHistory.tail ++ [f]) ∧
    (∀ s : PerfState, s.fpsHistory = [] → getAverageFPS s = s.fps) ∧
    (∀ s : PerfState, s.fpsHistory ≠ [] →
      getAverageFPS s = s.fpsHistory.sum / s.fpsHistory.length) := by
  refine ⟨?_, ?_, ?_, ?_⟩
  · intro s f h
    simp only [updateFPSHistory]
    split_ifs with hlen
    · simp only [List.length_tail, List.length_append, List.length_singleton]
      omega
    · simp only [List.length_append, List.length_singleton] at hlen ⊢
      omega
  · intro s f h
    simp only [updateFPSHistory]
    rw [if_pos (by simp [h])]
    rcases hl : s.fpsHistory with _ | ⟨a, l⟩
    · rw [hl] at h; simp at h
    · simp
  · intro s h
    simp [getAverageFPS, h]
  · intro s h
    rw [getAverageFPS, if_neg (by simpa using h)]
    rw [List.sum_eq_foldl]

/-- Claim C8, witness: the mean clause at a one-element history and the
empty-history fallback at the freshly constructed governor. -/
theorem fpsHistory_bounded_and_mean_w :
    getAverageFPS lowAt60 = lowAt60.fpsHistory.sum / lowAt60.fpsHistory.length ∧
    getAverageFPS (initPerfState 0) = (initPerfState 0).fps :=
  ⟨fpsHistory_bounded_and_mean.2.2.2 lowAt60 (by simp [lowAt60, highAt10]),
   fpsHistory_bounded_and_mean.2.2.1 (initPerfState 0) rfl⟩

/-- Claim C3: the notification loop has no exception isolation.  With two
subscribers of which the first throws, only the first is invoked — the
second registered subscriber is never called (whereas with no throwing
subscriber both are).  The exception also escapes the monitor callback
before the next frame is scheduled. -/
theorem subscriber_throw_aborts_notification :
    invokedDuringNotify (fun c => c == 0) [0, 1] = [0] ∧
    (1 : ℕ) ∉ invokedDuringNotify (fun c => c == 0) [0, 1] ∧
    invokedDuringNotify (fun _ => false) [0, 1] = [0, 1] := by
  decide

lemma indexOfJS_of_not_mem (cbs : List ℕ) (cb : ℕ) (h : cb ∉ cbs) :
    indexOfJS cbs cb = -1 := by
  induction cbs with
  | nil => rfl
  | cons c cs ih =>
    have hc : ¬c = cb := by rintro rfl; exact h (List.mem_cons_self _ _)
    have hcs : cb ∉ cs := fun hm => h (List.mem_cons_of_mem _ hm)
    simp [indexOfJS, hc, ih hcs]

lemma indexOfJS_nonneg (cbs : List ℕ) (cb : ℕ) (h : cb ∈ cbs) :
    0 ≤ indexOfJS cbs cb := by
  induction cbs with
  | nil => cases h
  | cons c cs ih =>
    by_cases hc : c = cb
    · simp [indexOfJS, hc]
    · have hcs : cb ∈ cs := by
        rcases List.mem_cons.mp h with h1 | h2
        · exact absurd h1.symm hc
        · exact h2
      have hr := ih hcs
      simp only [indexOfJS, if_neg hc]
      split_ifs with h0 <;> omega

lemma unsubscribeStep_cons_self (c : ℕ) (cs : List ℕ) :
    unsubscribeStep (c :: cs) c = cs := by
  simp [unsubscribeStep, indexOfJS, spliceOne]

lemma unsubscribeStep_cons_of_ne (c cb : ℕ) (cs : List ℕ) (hc : ¬c = cb) :
    unsubscribeStep (c :: cs) cb = c :: unsubscribeStep cs cb := by
  by_cases hm : cb ∈ cs
  · have hnn := indexOfJS_nonneg cs cb hm
    have hne : indexOfJS cs cb ≠ -1 := by omega
    simp only [unsubscribeStep, indexOfJS, if_neg hc, if_neg hne]
    rw [if_pos (show indexOfJS cs cb + 1 > -1 by omega),
        if_pos (show indexOfJS cs cb > -1 by omega)]
    rw [show (indexOfJS cs cb + 1).toNat = (indexOfJS cs cb).toNat + 1 by omega]
    simp [spliceOne]
  · have h1 := indexOfJS_of_not_mem cs cb hm
    have h2 : indexOfJS (c :: cs) cb = -1 := by simp [indexOfJS, hc, h1]
    simp [unsubscribeStep, h1, h2]

/-- The unsubscribe closure removes exactly the first occurrence of the
captured callback (JS `indexOf`/`splice` agree with `List.erase`). -/
lemma unsubscribeStep_eq_erase (cbs : List ℕ) (cb : ℕ) :
    unsubscribeStep cbs cb = cbs.erase cb := by
  induction cbs with
  | nil => rfl
  | cons c cs ih =>
    by_cases hc : c = cb
    · subst hc
      rw [unsubscribeStep_cons_self, List.erase_cons_head]
    · rw [unsubscribeStep_cons_of_ne c cb cs hc, ih,
          List.erase_cons_tail (by simpa using hc)]

/-- Claim C4, counterexample: when the same callback is subscribed twice,
the handle's second invocation is not a no-op — `indexOf` finds the
remaining duplicate registration and removes it too, emptying the list. -/
theorem unsubscribe_double_removes_duplicate :
    unsubscribeStep [0, 0] 0 = [0] ∧
    unsubscribeStep (unsubscribeStep [0, 0] 0) 0 = [] := by
  decide

/-- Claim C4, amended: invoking an unsubscribe handle removes the first
occurrence of the captured callback (so callbacks different from it are
never affected, and there is never an exception), and double-unsubscribe is
a no-op exactly when the callback is registered at most once — with
duplicate registrations of the same callback each invocation keeps removing
occurrences. -/
theorem unsubscribe_first_occurrence (cbs : List ℕ) (cb : ℕ) :
    (∀ d : ℕ, d ≠ cb → (unsubscribeStep cbs cb).count d = cbs.count d) ∧
    (cbs.count cb ≤ 1 →
      unsubscribeStep (unsubscribeStep cbs cb) cb = unsubscribeStep cbs cb) := by
  constructor
  · intro d hd
    rw [unsubscribeStep_eq_erase]
    exact List.count_erase_of_ne hd cbs
  · intro h
    rw [unsubscribeStep_eq_erase, unsubscribeStep_eq_erase]
    apply List.erase_of_not_mem
    intro hmem
    have h1 : (cbs.erase cb).count cb = cbs.count cb - 1 :=
      List.count_erase_self cb cbs
    have h2 : 0 < (cbs.erase cb).count cb := List.count_pos_iff.mpr hmem
    omega

/-- Claim C4, witness: distinct subscribers `[1, 2]`; unsubscribing `1`
leaves subscriber `2` untouched and a second unsubscribe is a no-op. -/
theorem unsubscribe_first_occurrence_w :
    (unsubscribeStep [1, 2] 1).count 2 = ([1, 2] : List ℕ).count 2 ∧
    unsubscribeStep (unsubscribeStep [1, 2] 1) 1 = unsubscribeStep [1, 2] 1 :=
  ⟨(unsubscribe_first_occurrence [1, 2] 1).1 2 (by decide),
   (unsubscribe_first_occurrence [1, 2] 1).2 (by decide)⟩

lemma take_append_take (a l : List ℕ) (n : ℕ) :
    (a ++ l.take n).take n = (a ++ l).take n := by
  rw [List.take_append_eq_append_take, List.take_append_eq_append_take,
      List.take_take]
  congr 2
  omega

lemma boundedUnshift_length (cap : ℕ) (l : List ℕ) (e : ℕ) :
    (boundedUnshift cap l e).length ≤ cap := by
  simp only [boundedUnshift]
  split_ifs with hlen
  · simp only [List.length_take]
    omega
  · simp only [List.length_cons] at hlen ⊢
    omega

lemma boundedUnshift_take (cap : ℕ) (l : List ℕ) (e : ℕ) :
    boundedUnshift cap l e = (e :: l).take cap := by
  simp only [boundedUnshift]
  split_ifs with hlen
  · rfl
  · have hle : (e :: l).length ≤ cap := by
      simp only [List.length_cons] at hlen ⊢
      omega
    rw [List.take_of_length_le hle]

/-- Folding bounded front-insertions from any in-bound start state keeps
exactly the `cap` most recent entries, most recent first. -/
lemma foldl_boundedUnshift (cap : ℕ) (es : List ℕ) : ∀ init : List ℕ,
    init.length ≤ cap →
    es.foldl (boundedUnshift cap) init = (es.reverse ++ init).take cap := by
  induction es with
  | nil =>
    intro init h
    simp only [List.foldl_nil, List.reverse_nil, List.nil_append]
    rw [List.take_of_length_le h]
  | cons e es' ih =>
    intro init h
    rw [List.foldl_cons, ih (boundedUnshift cap init e) (boundedUnshift_length cap init e)]
    rw [boundedUnshift_take cap init e, take_append_take]
    rw [List.reverse_cons, List.append_assoc]
    rfl

/-- Claim C7: after any sequence of `trackError` calls starting from the
empty tracker, the stored error list is exactly the (up to) 50 most
recently inserted entries in most-recent-first order — so its length never
exceeds 50, and inserting 60 entries leaves exactly 50; the
`trackPerformanceIssue` list obeys the same discipline with cap 100. -/
theorem errorLists_bounded_most_recent_first :
    (∀ es : List ℕ, es.foldl trackError [] = es.reverse.take 50) ∧
    (∀ es : List ℕ, (es.foldl trackError []).length ≤ 50) ∧
    ((List.range 60).foldl trackError []).length = 50 ∧
    (∀ es : List ℕ, es.foldl trackPerformanceIssue [] = es.reverse.take 100) := by
  have h50 : ∀ es : List ℕ, es.foldl trackError [] = es.reverse.take 50 := by
    intro es
    have h := foldl_boundedUnshift 50 es [] (by simp)
    simpa using h
  refine ⟨h50, fun es => ?_, ?_, fun es => ?_⟩
  · rw [h50]
    simp only [List.length_take]
    omega
  · rw [h50]
    simp
  · have h := foldl_boundedUnshift 100 es [] (by simp)
    simpa using h

/-- Claim C9: `setLoadingProgress(x)` stores `Math.max(0, Math.min(100, x))`
— the clamp of `x` to `[0, 100]`: negative inputs are stored as 0, inputs
above 100 as 100, in-range inputs unchanged; out-of-range inputs are
saturated, never rejected, from any store state. -/
theorem setLoadingProgress_clamps (s : SceneState) (x : ℚ) :
    (0 ≤ (applyAction s (.setLoadingProgress x)).loadingProgress ∧
      (applyAction s (.setLoadingProgress x)).loadingProgress ≤ 100) ∧
    (x < 0 → (applyAction s (.setLoadingProgress x)).loadingProgress = 0) ∧
    (100 < x → (applyAction s (.setLoadingProgress x)).loadingProgress = 100) ∧
    (0 ≤ x → x ≤ 100 → (applyAction s (.setLoadingProgress x)).loadingProgress = x) := by
  simp only [applyAction]
  refine ⟨⟨le_max_left 0 _, ?_⟩, ?_, ?_, ?_⟩
  · exact max_le (by norm_num) (min_le_left _ _)
  · intro hx
    rw [min_eq_right (by linarith), max_eq_left (by linarith)]
  · intro hx
    rw [min_eq_left (by linarith)]
    exact max_eq_right (by norm_num)
  · intro h0 h1
    rw [min_eq_right h1, max_eq_right h0]

/-- Claim C9, witness: writing 150 from the initial state stores 100. -/
theorem setLoadingProgress_clamps_w :
    (applyAction (initialState 0) (.setLoadingProgress 150)).loadingProgress = 100 :=
  (setLoadingProgress_clamps (initialState 0) 150).2.2.1 (by norm_num)

/-- Claim C10: the top-level `performanceMode` always equals
`userPreferences.performanceMode`: the invariant holds in the initial
state, is preserved by every named mutation operation (both fields written
together by `setPerformanceMode`, `updateUserPreferences` carrying a
`performanceMode`, `resetScene` and `initializeDefaults`; no other
operation touches either), and hence holds after any sequence of
operations. -/
theorem performanceMode_mirrors_preferences :
    (∀ now : ℚ, prefModeInv (initialState now)) ∧
    (∀ (s : SceneState) (a : SceneAction), prefModeInv s → prefModeInv (applyAction s a)) ∧
    (∀ (now : ℚ) (acts : List SceneAction),
      prefModeInv (acts.foldl applyAction (initialState now))) := by
  have hstep : ∀ (s : SceneState) (a : SceneAction),
      prefModeInv s → prefModeInv (applyAction s a) := by
    intro s a h
    cases a with
    | setLoaded b => exact h
    | setCurrentZone zone => exact h
    | setLoadingProgress progress => exact h
    | updateUserPosition p => exact h
    | updateCameraTarget p => exact h
    | updateCameraRotation x y => exact h
    | setPerformanceMode mode => rfl
    | updateFPS fps => exact h
    | updateAverageFPS averageFPS => exact h
    | updateUserPreferences p =>
      rcases hp : p.performanceMode with _ | m
      · simp only [applyAction, prefModeInv, hp]
        simpa [Option.getD] using h
      · simp [applyAction, prefModeInv, hp]
    | setIsNavigating b => exact h
    | updateLastInteractionTime now => exact h
    | setError e => exact h
    | resetScene now => rfl
    | initializeDefaults isMobile isLowEndDevice prefersReducedMotion now =>
      simp only [applyAction, prefModeInv] at h ⊢
      split_ifs <;> simp_all
  have hall : ∀ (acts : List SceneAction) (s : SceneState),
      prefModeInv s → prefModeInv (acts.foldl applyAction s) := by
    intro acts
    induction acts with
    | nil => exact fun s h => h
    | cons a as ih => exact fun s h => ih _ (hstep s a h)
  exact ⟨fun now => rfl, hstep, fun now acts => hall acts _ rfl⟩

/-- Claim C10, witness: the preservation clause applied to the initial
state and `setPerformanceMode('low')`. -/
theorem performanceMode_mirrors_preferences_w :
    prefModeInv (applyAction (initialState 0) (.setPerformanceMode .low)) :=
  performanceMode_mirrors_preferences.2.1 (initialState 0) (.setPerformanceMode .low) rfl

lemma len_smul (c : ℝ) (v : Vec3) (hc : 0 ≤ c) :
    len ⟨v.x * c, v.y * c, v.z * c⟩ = len v * c := by
  unfold len
  have h : (v.x * c) ^ 2 + (v.y * c) ^ 2 + (v.z * c) ^ 2 =
      (v.x ^ 2 + v.y ^ 2 + v.z ^ 2) * c ^ 2 := by ring
  rw [h, Real.sqrt_mul (by positivity), Real.sqrt_sq hc]

/-- Claim C6, counterexample: the vertical clamp runs before the radial
clamp, and the radial clamp rescales every component, so the final vertical
component can end up below 0.5 — at position `(200, 0.5, 0)` one zero-input
update leaves `y = 50 / sqrt(40000.25) < 0.5`, refuting the claimed
post-update bound `y ∈ [0.5, 50]`. -/
theorem camera_clamp_y_below_half :
    (frameClampZeroInput ⟨200, 1/2, 0⟩).y < 1/2 := by
  have hY : clampY ⟨200, 1/2, 0⟩ = ⟨200, 1/2, 0⟩ := by
    unfold clampY
    rw [max_self, min_eq_right (by norm_num : (1/2 : ℝ) ≤ 50)]
  have hlen100 : (100 : ℝ) < len ⟨200, 1/2, 0⟩ := by
    show (100 : ℝ) < Real.sqrt ((200 : ℝ) ^ 2 + (1/2) ^ 2 + 0 ^ 2)
    rw [show (100 : ℝ) = Real.sqrt (100 ^ 2) from
      (Real.sqrt_sq (by norm_num : (0:ℝ) ≤ 100)).symm]
    exact Real.sqrt_lt_sqrt (by positivity) (by norm_num)
  have heq : frameClampZeroInput ⟨200, 1/2, 0⟩ =
      ⟨200 * (100 / len ⟨200, 1/2, 0⟩), (1/2) * (100 / len ⟨200, 1/2, 0⟩),
        0 * (100 / len ⟨200, 1/2, 0⟩)⟩ := by
    unfold frameClampZeroInput
    rw [hY]
    unfold clampRadius
    rw [if_pos hlen100]
  rw [heq]
  show (1/2 : ℝ) * (100 / len ⟨200, 1/2, 0⟩) < 1/2
  have hpos : (0 : ℝ) < len ⟨200, 1/2, 0⟩ := lt_trans (by norm_num) hlen100
  have hlt1 : 100 / len ⟨200, 1/2, 0⟩ < 1 := (div_lt_one hpos).mpr hlen100
  nlinarith

/-- Claim C6, amended: for a starting position at distance 150 whose
vertical component already lies in `[0.5, 50]`, one zero-input update
scales the position by the positive factor `2/3` (same direction from the
origin) to distance exactly 100; after every update the distance is at most
100 and the vertical component at most 50; the lower vertical bound 0.5
holds after the update whenever the radial clamp does not fire, but the
radial clamp may scale the vertical component below 0.5. -/
theorem camera_clamp_amended :
    (∀ v : Vec3, len v = 150 → 1/2 ≤ v.y → v.y ≤ 50 →
      frameClampZeroInput v = ⟨v.x * (2/3), v.y * (2/3), v.z * (2/3)⟩ ∧
      len (frameClampZeroInput v) = 100) ∧
    (∀ v : Vec3, len (frameClampZeroInput v) ≤ 100 ∧ (frameClampZeroInput v).y ≤ 50) ∧
    (∀ v : Vec3, ¬100 < len (clampY v) → 1/2 ≤ (frameClampZeroInput v).y) := by
  refine ⟨?_, ?_, ?_⟩
  · intro v h150 hy1 hy2
    have hYv : clampY v = v := by
      unfold clampY
      rw [max_eq_right hy1, min_eq_right hy2]
    have hgt : (100 : ℝ) < len v := by rw [h150]; norm_num
    have heq : frameClampZeroInput v =
        ⟨v.x * (100 / len v), v.y * (100 / len v), v.z * (100 / len v)⟩ := by
      unfold frameClampZeroInput
      rw [hYv]
      unfold clampRadius
      rw [if_pos hgt]
    have hfac : (100 : ℝ) / len v = 2/3 := by rw [h150]; norm_num
    refine ⟨by rw [heq, hfac], ?_⟩
    rw [heq, hfac, len_smul (2/3) v (by norm_num), h150]
    norm_num
  · intro v
    have hwy1 : 1/2 ≤ (clampY v).y := le_min (by norm_num) (le_max_left _ _)
    have hwy2 : (clampY v).y ≤ 50 := min_le_left _ _
    by_cases hgt : 100 < len (clampY v)
    · have heq : frameClampZeroInput v =
          ⟨(clampY v).x * (100 / len (clampY v)),
            (clampY v).y * (100 / len (clampY v)),
            (clampY v).z * (100 / len (clampY v))⟩ := by
        unfold frameClampZeroInput
        unfold clampRadius
        rw [if_pos hgt]
      have hpos : (0 : ℝ) < len (clampY v) := lt_trans (by norm_num) hgt
      have hfle : 100 / len (clampY v) ≤ 1 := le_of_lt ((div_lt_one hpos).mpr hgt)
      have hfpos : (0 : ℝ) < 100 / len (clampY v) := div_pos (by norm_num) hpos
      constructor
      · rw [heq, len_smul _ (clampY v) (le_of_lt hfpos)]
        rw [mul_div_cancel₀ 100 (ne_of_gt hpos)]
      · rw [heq]
        show (clampY v).y * (100 / len (clampY v)) ≤ 50
        calc (clampY v).y * (100 / len (clampY v)) ≤ (clampY v).y * 1 :=
              mul_le_mul_of_nonneg_left hfle (le_trans (by norm_num) hwy1)
          _ = (clampY v).y := mul_one _
          _ ≤ 50 := hwy2
    · have heq : frameClampZeroInput v = clampY v := by
        unfold frameClampZeroInput clampRadius
        rw [if_neg hgt]
      rw [heq]
      exact ⟨le_of_not_lt hgt, hwy2⟩
  · intro v hng
    have heq : frameClampZeroInput v = clampY v := by
      unfold frameClampZeroInput clampRadius
      rw [if_neg hng]
    rw [heq]
    exact le_min (by norm_num) (le_max_left _ _)

/-- Claim C6, witness: the distance-150 clause at `(100, 50, 100)`
(`100² + 50² + 100² = 150²`): one update lands exactly on the radius-100
sphere in the same direction. -/
theorem camera_clamp_amended_w :
    frameClampZeroInput ⟨100, 50, 100⟩ =
      ⟨100 * (2/3), 50 * (2/3), 100 * (2/3)⟩ ∧
    len (frameClampZeroInput ⟨100, 50, 100⟩) = 100 :=
  camera_clamp_amended.1 ⟨100, 50, 100⟩
    (by
      show Real.sqrt ((100 : ℝ) ^ 2 + 50 ^ 2 + 100 ^ 2) = 150
      rw [show (100 : ℝ) ^ 2 + 50 ^ 2 + 100 ^ 2 = 150 ^ 2 by norm_num,
        Real.sqrt_sq (by norm_num : (0:ℝ) ≤ 150)])
    (by show (1/2 : ℝ) ≤ 50; norm_num)
    (by show (50 : ℝ) ≤ 50; norm_num)
